import Mathlib

/-!
Verification development for the `cycompile` runtime compilation cache and
dispatch engine (file `src/cycompile/cythonize_decorator.py`).

The Python module is shallowly embedded: pure helpers become Lean functions,
the stateful decorator `wrapper` becomes an explicit state-passing step
function, and the external collaborators (the Cython backend, the dynamic
loader, `inspect`-based introspection and the `ast` parser) are supplied as
environment data, mirroring the interface boundary of the module.
-/

namespace Cycompile

/-! ## Python string primitives

The decorator module manipulates Python strings with `strip`, `rstrip`,
`startswith`, `endswith`, `splitlines` and substring containment.  We model
Python strings as Lean `String`s (all inputs of interest are ASCII) and give
each primitive an executable counterpart on the underlying character list. -/

/-- Python `str.strip()`: drop leading and trailing whitespace. -/
def pyStrip (s : String) : String :=
  ⟨((s.data.dropWhile Char.isWhitespace).reverse.dropWhile Char.isWhitespace).reverse⟩

/-- Python `str.rstrip()`: drop trailing whitespace only. -/
def pyRstrip (s : String) : String :=
  ⟨((s.data.reverse.dropWhile Char.isWhitespace).reverse)⟩

/-- Python `s.startswith(p)`: `p` is a prefix of the character sequence. -/
def pyStartswith (s p : String) : Bool :=
  p.data.isPrefixOf s.data

/-- Python `s.endswith(p)`: `p` is a suffix of the character sequence. -/
def pyEndswith (s p : String) : Bool :=
  p.data.isSuffixOf s.data

/-- Python `needle in hay` on strings (substring containment). -/
def containsSub (hay needle : String) : Bool :=
  (hay.splitOn needle).length > 1

/-- Python `str.lower()` (ASCII): lowercase every character. -/
def pyLower (s : String) : String :=
  ⟨s.data.map Char.toLower⟩

/-- Python `str.splitlines()` restricted to `\n` separators: like
`splitOn "\n"` except that a trailing newline does not contribute an empty
final line and the empty string has no lines. -/
def pySplitlines (s : String) : List String :=
  if s = "" then []
  else
    let parts := s.splitOn "\n"
    if parts.getLast? = some "" then parts.dropLast else parts

/-- The single-quote character used by Python `repr` of strings. -/
def sq : String := String.singleton (Char.ofNat 39)

/-- Values that appear as Cython compiler-directive settings in this module:
Python ints, bools and strings. -/
inductive PyVal where
  | int (n : Int)
  | bool (b : Bool)
  | str (s : String)
deriving DecidableEq, Repr

/-- Python `str()` of a directive value as it appears inside `str(dict)`. -/
def pyReprVal : PyVal → String
  | .int n => toString n
  | .bool true => "True"
  | .bool false => "False"
  | .str s => sq ++ s ++ sq

/-- A Python `dict` with string keys, modelled as an insertion-ordered
association list (Python dicts preserve insertion order). -/
abbrev PyDict := List (String × PyVal)

/-- Python `str()` of a dict: `\x7b'k1': v1, 'k2': v2\x7d`. -/
def pyReprDict (d : PyDict) : String :=
  "\x7b" ++ String.intercalate ", " (d.map (fun p => sq ++ p.1 ++ sq ++ ": " ++ pyReprVal p.2)) ++ "\x7d"

/-- Python `str()` of a list of strings: `['a', 'b']`. -/
def pyReprStrList (l : List String) : String :=
  "[" ++ String.intercalate ", " (l.map (fun s => sq ++ s ++ sq)) ++ "]"

/-! ## MD5 (model of Python `hashlib.md5(...).hexdigest()`)

The cache identifier is `"mod_" + md5(params + source).hexdigest()`.  The
digest itself is computed by the external `hashlib` collaborator; we embed the
RFC 1321 algorithm over `Nat` with explicit reduction modulo `2^32` so that
identifiers are computable inside Lean. -/

/-- UTF-8 encoding of a single code point (model of Python `str.encode()`). -/
def utf8Char (c : Char) : List Nat :=
  let n := c.toNat
  if n < 128 then [n]
  else if n < 2048 then [192 + n / 64, 128 + n % 64]
  else if n < 65536 then [224 + n / 4096, 128 + (n / 64) % 64, 128 + n % 64]
  else [240 + n / 262144, 128 + (n / 4096) % 64, 128 + (n / 64) % 64, 128 + n % 64]

/-- UTF-8 bytes of a string. -/
def utf8Encode (s : String) : List Nat :=
  s.data.flatMap utf8Char

/-- Addition modulo `2^32`. -/
def add32 (a b : Nat) : Nat := (a + b) % 4294967296

/-- Left rotation of a 32-bit word. -/
def rotl32 (a s : Nat) : Nat :=
  ((a <<< s) % 4294967296) ||| (a >>> (32 - s))

/-- MD5 round function F. -/
def md5F (b c d : Nat) : Nat := (b &&& c) ||| ((b ^^^ 4294967295) &&& d)

/-- MD5 round function G. -/
def md5G (b c d : Nat) : Nat := (d &&& b) ||| ((d ^^^ 4294967295) &&& c)

/-- MD5 round function H. -/
def md5H (b c d : Nat) : Nat := b ^^^ c ^^^ d

/-- MD5 round function I. -/
def md5I (b c d : Nat) : Nat := c ^^^ (b ||| (d ^^^ 4294967295))

/-- The 64 MD5 sine-derived constants. -/
def md5K : List Nat :=
  [0xd76aa478, 0xe8c7b756, 0x242070db, 0xc1bdceee,
   0xf57c0faf, 0x4787c62a, 0xa8304613, 0xfd469501,
   0x698098d8, 0x8b44f7af, 0xffff5bb1, 0x895cd7be,
   0x6b901122, 0xfd987193, 0xa679438e, 0x49b40821,
   0xf61e2562, 0xc040b340, 0x265e5a51, 0xe9b6c7aa,
   0xd62f105d, 0x02441453, 0xd8a1e681, 0xe7d3fbc8,
   0x21e1cde6, 0xc33707d6, 0xf4d50d87, 0x455a14ed,
   0xa9e3e905, 0xfcefa3f8, 0x676f02d9, 0x8d2a4c8a,
   0xfffa3942, 0x8771f681, 0x6d9d6122, 0xfde5380c,
   0xa4beea44, 0x4bdecfa9, 0xf6bb4b60, 0xbebfbc70,
   0x289b7ec6, 0xeaa127fa, 0xd4ef3085, 0x04881d05,
   0xd9d4d039, 0xe6db99e5, 0x1fa27cf8, 0xc4ac5665,
   0xf4292244, 0x432aff97, 0xab9423a7, 0xfc93a039,
   0x655b59c3, 0x8f0ccc92, 0xffeff47d, 0x85845dd1,
   0x6fa87e4f, 0xfe2ce6e0, 0xa3014314, 0x4e0811a1,
   0xf7537e82, 0xbd3af235, 0x2ad7d2bb, 0xeb86d391]

/-- The 64 MD5 per-round left-rotation amounts. -/
def md5S : List Nat :=
  [7, 12, 17, 22, 7, 12, 17, 22, 7, 12, 17, 22, 7, 12, 17, 22,
   5, 9, 14, 20, 5, 9, 14, 20, 5, 9, 14, 20, 5, 9, 14, 20,
   4, 11, 16, 23, 4, 11, 16, 23, 4, 11, 16, 23, 4, 11, 16, 23,
   6, 10, 15, 21, 6, 10, 15, 21, 6, 10, 15, 21, 6, 10, 15, 21]

/-- Little-endian 8-byte encoding of the message bit length. -/
def leBytes8 (n : Nat) : List Nat :=
  (List.range 8).map (fun i => (n >>> (8 * i)) % 256)

/-- MD5 padding: append `0x80`, zero bytes to 56 mod 64, then the bit length. -/
def md5Pad (msg : List Nat) : List Nat :=
  let len := msg.length
  let padLen := (119 - len % 64) % 64
  msg ++ [128] ++ List.replicate padLen 0 ++ leBytes8 ((8 * len) % 18446744073709551616)

/-- Word `j` (little-endian) of a 64-byte chunk. -/
def leWord (chunk : List Nat) (j : Nat) : Nat :=
  chunk.getD (4 * j) 0 + 256 * chunk.getD (4 * j + 1) 0 +
    65536 * chunk.getD (4 * j + 2) 0 + 16777216 * chunk.getD (4 * j + 3) 0

/-- One of the 64 MD5 operations on the register quadruple. -/
def md5Step (chunk : List Nat) (r : Nat × Nat × Nat × Nat) (i : Nat) :
    Nat × Nat × Nat × Nat :=
  let (a, b, c, d) := r
  let fg : Nat × Nat :=
    if i < 16 then (md5F b c d, i)
    else if i < 32 then (md5G b c d, (5 * i + 1) % 16)
    else if i < 48 then (md5H b c d, (3 * i + 5) % 16)
    else (md5I b c d, (7 * i) % 16)
  let tmp := add32 (add32 (add32 fg.1 a) (md5K.getD i 0)) (leWord chunk fg.2)
  (d, add32 b (rotl32 tmp (md5S.getD i 0)), b, c)

/-- Process the padded message 64-byte chunk by chunk; `n` is the number of
chunks (the padded length is always an exact multiple of 64). -/
def md5Loop (n : Nat) (bytes : List Nat) (h : Nat × Nat × Nat × Nat) :
    Nat × Nat × Nat × Nat :=
  match n with
  | 0 => h
  | n + 1 =>
    let chunk := bytes.take 64
    let r := (List.range 64).foldl (md5Step chunk) h
    md5Loop n (bytes.drop 64)
      (add32 h.1 r.1, add32 h.2.1 r.2.1, add32 h.2.2.1 r.2.2.1, add32 h.2.2.2 r.2.2.2)

/-- A nibble as a lowercase hex character. -/
def hexDigit (n : Nat) : Char :=
  Char.ofNat (if n < 10 then 48 + n else 87 + n)

/-- A byte as two lowercase hex characters. -/
def byteHex (b : Nat) : String :=
  String.mk [hexDigit (b / 16 % 16), hexDigit (b % 16)]

/-- A 32-bit word rendered little-endian as 8 hex characters. -/
def wordHexLE (w : Nat) : String :=
  String.join ((List.range 4).map (fun i => byteHex ((w >>> (8 * i)) % 256)))

/-- `hashlib.md5(s.encode()).hexdigest()`. -/
def md5Hex (s : String) : String :=
  let padded := md5Pad (utf8Encode s)
  let r := md5Loop (padded.length / 64) padded (0x67452301, 0xefcdab89, 0x98badcfe, 0x10325476)
  wordHexLE r.1 ++ wordHexLE r.2.1 ++ wordHexLE r.2.2.1 ++ wordHexLE r.2.2.2

/-! ## Cache key (from `wrapper`, `cythonize_decorator.py` lines 393-399)

`params = (str(compiler_directives) if compiler_directives is not None else "")
        + (str(extra_compile_args) if extra_compile_args is not None else "")
        + str(opt)`
`hash_key = "mod_" + hashlib.md5((params + inspect.getsource(func)).encode()).hexdigest()` -/

/-- The `params` string concatenated in `wrapper` before hashing.  Note that it
is built from the decorator arguments exactly as passed (`None` contributes the
empty string), not from the resolved profile configuration. -/
def paramsString (compiler_directives : Option PyDict)
    (extra_compile_args : Option (List String)) (opt : String) : String :=
  (match compiler_directives with | some d => pyReprDict d | none => "") ++
  (match extra_compile_args with | some l => pyReprStrList l | none => "") ++ opt

/-- The cache identifier `hash_key` computed in `wrapper`: namespace tag
`"mod_"` followed by the md5 hex digest of the params string concatenated with
the function's raw source text. -/
def computeKey (compiler_directives : Option PyDict)
    (extra_compile_args : Option (List String)) (opt : String)
    (funcSource : String) : String :=
  "mod_" ++ md5Hex (paramsString compiler_directives extra_compile_args opt ++ funcSource)

/-! ## Profile resolution (from `run_cython_compile`, lines 269-301) -/

/-- A profile entry: default directives and default flags. -/
abbrev Profile := PyDict × List String

/-- The `safe` profile entry of `opt_profiles`. -/
def safeProfile : Profile :=
  ([("language_level", .int 3)], [])

/-- The `fast` profile entry of `opt_profiles`; its flag list depends on the
platform (`IS_WINDOWS`). -/
def fastProfile (isWindows : Bool) : Profile :=
  ([("language_level", .int 3),
    ("boundscheck", .bool false),
    ("wraparound", .bool false),
    ("cdivision", .bool true),
    ("nonecheck", .bool false)],
   if isWindows then ["/O2"]
   else ["-Ofast", "-march=native", "-flto", "-funroll-loops", "-ffast-math"])

/-- The `opt_profiles` table. -/
def opt_profiles (isWindows : Bool) : List (String × Profile) :=
  [("safe", safeProfile), ("fast", fastProfile isWindows)]

/-- Python `\x7b**a, **b\x7d` for string-keyed dicts: the keys of `a` in order
with values overridden by `b` where present, followed by the keys of `b` not in
`a`, in `b`'s order. -/
def dictMerge (a b : PyDict) : PyDict :=
  a.map (fun p => match b.lookup p.1 with | some v => (p.1, v) | none => p) ++
    b.filter (fun q => (a.lookup q.1).isNone)

/-- The directive/flag resolution performed by `run_cython_compile`
(lines 292-301): `custom` bypasses the profile table entirely; otherwise the
profile looked up by `opt.lower()` (defaulting to `safe`) is shallow-merged
with the directive overrides and its flags are concatenated with the flag
overrides. -/
def resolveConfig (isWindows : Bool) (opt : String)
    (compiler_directives : Option PyDict) (extra_compile_args : Option (List String)) :
    PyDict × List String :=
  if opt = "custom" then
    (compiler_directives.getD [], extra_compile_args.getD [])
  else
    let profile := ((opt_profiles isWindows).lookup (pyLower opt)).getD safeProfile
    (dictMerge profile.1 (compiler_directives.getD []),
     profile.2 ++ extra_compile_args.getD [])

/-! ## Decorator stripping (`remove_decorators`, lines 198-244) -/

/-- The whitelist of decorators that `remove_decorators` preserves. -/
def keep_decorators : List String := ["@staticmethod", "@classmethod", "@property"]

/-- Whether a line is kept by the whitelist check
`any(stripped.startswith(decorator) for decorator in keep_decorators)`. -/
def isKeptDec (line : String) : Bool :=
  keep_decorators.any (fun d => pyStartswith (pyStrip line) d)

/-- The line loop of `remove_decorators`.  The boolean argument is the
`in_decorator` flag: while set, lines are skipped until one whose stripped form
ends in `)`. -/
def processDecLines : List String → Bool → List String
  | [], _ => []
  | l :: ls, true =>
    if pyEndswith (pyStrip l) ")" then processDecLines ls false
    else processDecLines ls true
  | l :: ls, false =>
    if pyStartswith (pyStrip l) "@" then
      if isKeptDec l then l :: processDecLines ls false
      else if pyEndswith (pyStrip l) ")" then processDecLines ls false
      else processDecLines ls true
    else l :: processDecLines ls false

/-- `remove_decorators`: split the captured source into lines, run the loop,
and rejoin with newlines. -/
def remove_decorators (funcSource : String) : String :=
  String.intercalate "\n" (processDecLines (pySplitlines funcSource) false)

/-- Helper used to specify the multi-line skip: drop lines up to and including
the first whose stripped form ends in `)`. -/
def skipThroughClose : List String → List String
  | [] => []
  | l :: ls => if pyEndswith (pyStrip l) ")" then ls else skipThroughClose ls

/-! ## Unit extraction (`generate_cython_source` and helpers, lines 56-195)

The `inspect`- and `ast`-based introspection primitives are external
collaborators; their outputs for the decorated function are captured in an
`Introspection` record, and the module's own logic over those outputs is
embedded directly. -/

/-- Errors surfaced by the embedded pipeline. -/
inductive PyErr where
  /-- `IndentationError` raised by `ast.parse` on an indented source block. -/
  | indentation
  /-- compiler backend failure (`CompileError`), with its diagnostics. -/
  | compile (msg : String)
  /-- dynamic import / symbol lookup failure (`LoadError`). -/
  | load (msg : String)
deriving DecidableEq, Repr

/-- Introspection data for one decorated function, as returned by the external
`inspect`/`ast` collaborators. -/
structure Introspection where
  /-- `func.__name__`. -/
  funcName : String
  /-- `inspect.getsource(func)`: the raw captured source, decorators included,
  indented exactly as in the defining file. -/
  funcSource : String
  /-- `inspect.getmodule(func).__name__`. -/
  moduleName : String
  /-- names from `inspect.getmembers(module, inspect.isfunction)`. -/
  functionNames : List String
  /-- names from `get_class_names`. -/
  classNames : List String
  /-- the lines of the defining source file. -/
  fileLines : List String
  /-- the callee names collected by the `ast.walk` over the parsed source
  (direct-call names and attribute-call attribute names), when parsing
  succeeds. -/
  astCalls : List String

/-- The excluded module names (`exclude=("cythonize_decorator", "cycompile")`). -/
def excludeNames : List String := ["cythonize_decorator", "cycompile"]

/-- Modelled external behavior of CPython `ast.parse` at the granularity
`get_called_functions` relies on: parsing a source block whose first character
is whitespace (a function captured from a class body or a nested scope keeps
its file indentation) raises `IndentationError`; an unindented module-level
source parses successfully. -/
def astParseRaises (src : String) : Bool :=
  match src.data with
  | [] => false
  | c :: _ => c.isWhitespace

/-- `get_called_functions` (lines 160-195): parse the source (possibly raising
`IndentationError`), walk the call expressions (the walk itself is the external
`ast` collaborator, its output is `i.astCalls`), then filter to the available
module-level names. -/
def get_called_functions (funcSource : String) (available : List String)
    (astCalls : List String) : Except PyErr (List String) :=
  if astParseRaises funcSource then .error .indentation
  else .ok (astCalls.filter (fun n => available.contains n))

/-- `extract_all_imports` (lines 77-127): sibling-import synthesis plus the
verbatim top-level import lines of the defining file, excluding any line that
mentions this system's own names. -/
def extract_all_imports (i : Introspection) : Except PyErr String :=
  let functionNames := i.functionNames.erase i.funcName
  let available := functionNames ++ i.classNames
  match get_called_functions i.funcSource available i.astCalls with
  | .error e => .error e
  | .ok called0 =>
    let called := called0.filter (fun n => !(excludeNames.contains n))
    let user_func_imports := String.intercalate "\n"
      (called.map (fun n => "from " ++ i.moduleName ++ " import " ++ n))
    let script_imports := String.intercalate "\n"
      ((i.fileLines.filter (fun line =>
          (pyStartswith (pyStrip line) "import" || pyStartswith (pyStrip line) "from") &&
          !(excludeNames.any (fun ex => containsSub (pyStrip line) ex)))).map pyRstrip)
    .ok (script_imports ++ "\n" ++ user_func_imports)

/-- `generate_cython_source` (lines 56-74): imports, a blank separator, then
the decorator-stripped function body. -/
def generate_cython_source (i : Introspection) : Except PyErr String :=
  match extract_all_imports i with
  | .error e => .error e
  | .ok imports => .ok (imports ++ "\n\n" ++ remove_decorators i.funcSource)

/-! ## Compilation dispatcher (`wrapper`, lines 372-477)

The decorator's per-function state (`compiled_func`), the session-wide cache
(`compiled_func_cache`), the on-disk cache root and `sys.path` form the state
that a call threads through.  The external compiler backend and the dynamic
module load are supplied by an environment, and the step function additionally
records the observable events of the call in order. -/

/-- Observable events of one invocation of `wrapper`, in order. -/
inductive Ev where
  /-- the hash key is computed. -/
  | computeHash
  /-- the cache root is globbed for `hash_key*.ext`. -/
  | globDisk
  /-- the in-process `compiled_func_cache` is consulted. -/
  | checkSession
  /-- `generate_cython_source` is run. -/
  | extract
  /-- the `.pyx` staging file is written. -/
  | writePyx
  /-- `run_cython_compile` (a build) is invoked. -/
  | build
  /-- `__import__` / `getattr` load the compiled artifact. -/
  | importMod
  /-- the compiled callable is invoked with the caller's arguments. -/
  | call
deriving DecidableEq, Repr

/-- `MAX_CACHE_SIZE` (line 43). -/
def MAX_CACHE_SIZE : Nat := 500

/-- The decorator arguments of one `@cycompile(...)` application. -/
structure DCfg where
  /-- `opt`. -/
  opt : String
  /-- `extra_compile_args`. -/
  extra_compile_args : Option (List String)
  /-- `compiler_directives`. -/
  compiler_directives : Option PyDict
deriving Repr

/-- The environment of external collaborators for one decorated function. -/
structure DEnv (α β : Type) where
  /-- `IS_WINDOWS`. -/
  isWindows : Bool
  /-- introspection data for the decorated function. -/
  intro : Introspection
  /-- the string `CACHE_DIR` appended to `sys.path`. -/
  cacheDir : String
  /-- outcome of the external Cython/setuptools build, given the translation
  unit text and the resolved directives and flags. -/
  compileResult : String → PyDict → List String → Except PyErr Unit
  /-- outcome of `__import__(hash_key)` plus
  `getattr(module, func.__name__)`: the loaded callable, or a load failure. -/
  importResult : Except PyErr (α → β)
  /-- platform suffix of the built artifact's filename after the base name
  (e.g. `".cpython-312-x86_64-linux-gnu.so"`). -/
  artifactSuffix : String

/-- The mutable state a call reads and writes. -/
structure DState (α β : Type) where
  /-- the `compiled_func` nonlocal slot: `none` is unresolved. -/
  slot : Option (α → β)
  /-- `compiled_func_cache`, an insertion-ordered map (oldest first). -/
  session : List (String × (α → β))
  /-- the filenames present in the cache root. -/
  disk : List String
  /-- `sys.path`. -/
  sysPath : List String

variable {α β : Type}

/-- The platform artifact extension chosen in `wrapper` (lines 401-405). -/
def platformExt (isWindows : Bool) : String :=
  if isWindows then "pyd" else "so"

/-- `CACHE_DIR.glob(f"\x7bhash_key\x7d*.\x7bextension\x7d")`: the files whose
name starts with the hash key and ends with the platform's native-library
extension. -/
def globMatches (disk : List String) (hashKey : String) (ext : String) : List String :=
  disk.filter (fun name => pyStartswith name hashKey && pyEndswith name ("." ++ ext))

/-- OrderedDict insertion: an existing key is updated in place, a new key is
appended at the end. -/
def odInsert {C : Type} (l : List (String × C)) (k : String) (v : C) :
    List (String × C) :=
  if (l.lookup k).isSome then
    l.map (fun p => if p.1 = k then (k, v) else p)
  else l ++ [(k, v)]

/-- State effect of `run_cython_compile` (lines 247-338): resolve the
configuration, append `CACHE_DIR` to `sys.path`, invoke the external build,
and pop `sys.path` in the `finally` block on every exit path.  On success the
artifact named after the staging file's base name appears in the cache root. -/
def run_cython_compile (env : DEnv α β) (cfg : DCfg) (tu : String)
    (baseName : String) (st : DState α β) : Except PyErr Unit × DState α β :=
  match env.compileResult tu
      (resolveConfig env.isWindows cfg.opt cfg.compiler_directives cfg.extra_compile_args).1
      (resolveConfig env.isWindows cfg.opt cfg.compiler_directives cfg.extra_compile_args).2 with
  | .ok _ =>
    (.ok (), { st with
      disk := st.disk ++ [baseName ++ env.artifactSuffix],
      sysPath := (st.sysPath ++ [env.cacheDir]).dropLast })
  | .error e => (.error e, { st with sysPath := (st.sysPath ++ [env.cacheDir]).dropLast })

/-- The import section of `wrapper` (lines 453-472): append `CACHE_DIR` to
`sys.path`, import the compiled module and fetch the symbol, evict the oldest
session entry when the session cache is full, store the callable into the
session cache and the dispatcher slot, and pop `sys.path` in the `finally`
block on every exit path. -/
def importSection (env : DEnv α β) (hashKey : String) (st : DState α β) :
    Except PyErr (α → β) × DState α β :=
  match env.importResult with
  | .ok f =>
    let session1 := if st.session.length ≥ MAX_CACHE_SIZE then st.session.drop 1 else st.session
    (.ok f, { st with
      slot := some f,
      session := odInsert session1 hashKey f,
      sysPath := (st.sysPath ++ [env.cacheDir]).dropLast })
  | .error e => (.error e, { st with sysPath := (st.sysPath ++ [env.cacheDir]).dropLast })

/-- Shared tail of the cold path: import the artifact, then forward the call. -/
def importAndCall (env : DEnv α β) (hashKey : String) (st : DState α β)
    (a : α) (evs : List Ev) : Except PyErr β × DState α β × List Ev :=
  match importSection env hashKey st with
  | (.ok f, st') => (.ok (f a), st', evs ++ [.importMod, .call])
  | (.error e, st') => (.error e, st', evs ++ [.importMod])

/-- The disk-miss arm of the cold path (the `else` of `if compiled_matches:`,
lines 421-448): run `generate_cython_source` (which may raise), write the
`.pyx` staging file, invoke `run_cython_compile` (which may raise), then fall
through to the import section. -/
def coldMiss (env : DEnv α β) (cfg : DCfg) (hashKey : String) (st : DState α β)
    (a : α) : Except PyErr β × DState α β × List Ev :=
  match generate_cython_source env.intro with
  | .error e => (.error e, st, [.computeHash, .globDisk, .extract])
  | .ok tu =>
    match run_cython_compile env cfg tu hashKey
        { st with disk := st.disk ++ [hashKey ++ ".pyx"] } with
    | (.error e, st2) =>
      (.error e, st2, [.computeHash, .globDisk, .extract, .writePyx, .build])
    | (.ok _, st2) =>
      importAndCall env hashKey st2 a
        [.computeHash, .globDisk, .extract, .writePyx, .build]

/-- The disk-hit arm of the cold path (lines 410-420): consult the session
cache; on a hit store the cached callable into the slot and forward the call,
otherwise fall through to the import section. -/
def coldHit (env : DEnv α β) (hashKey : String) (st : DState α β) (a : α) :
    Except PyErr β × DState α β × List Ev :=
  match st.session.lookup hashKey with
  | some f =>
    (.ok (f a), { st with slot := some f },
     [.computeHash, .globDisk, .checkSession, .call])
  | none =>
    importAndCall env hashKey st a [.computeHash, .globDisk, .checkSession]

/-- One invocation of `wrapper` (lines 372-477).  The fast path forwards to
the resolved slot; the cold path computes the hash key, globs the cache root,
consults the session cache on a disk hit, otherwise extracts, stages and
builds, and finally imports the artifact, populates the caches and the slot,
and forwards the call. -/
def wrapper (env : DEnv α β) (cfg : DCfg) (st : DState α β) (a : α) :
    Except PyErr β × DState α β × List Ev :=
  match st.slot with
  | some f => (.ok (f a), st, [.call])
  | none =>
    let hashKey := computeKey cfg.compiler_directives cfg.extra_compile_args
      cfg.opt env.intro.funcSource
    let ext := platformExt env.isWindows
    if (globMatches st.disk hashKey ext).isEmpty then
      coldMiss env cfg hashKey st a
    else
      coldHit env hashKey st a

/-- `n` successive invocations of the decorated function with the same
argument, accumulating the events of every call. -/
def iterateCalls (env : DEnv α β) (cfg : DCfg) : Nat → DState α β → α →
    DState α β × List Ev
  | 0, st, _ => (st, [])
  | n + 1, st, a =>
    let r := wrapper env cfg st a
    let rest := iterateCalls env cfg n r.2.1 a
    (rest.1, r.2.2 ++ rest.2)

/-! ## Mutual recursion scenario (`mutual_recursion.py`)

`is_even` and `is_odd` are both decorated; the compiled body of each refers to
the *other* by its module name, which resolves to the other's decorated
wrapper.  The dispatcher logic of `wrapper` is instantiated here for the two
functions sharing one process state: distinct sources hash to distinct keys,
so each function has its own slot, disk artifact, session entry and build
count, and the external build and import always succeed in this scenario. -/

/-- The shared process state of the two decorated functions. -/
structure MRState where
  /-- `is_even`'s dispatcher slot is resolved. -/
  slotE : Bool
  /-- `is_odd`'s dispatcher slot is resolved. -/
  slotO : Bool
  /-- number of build invocations performed for `is_even`. -/
  buildsE : Nat
  /-- number of build invocations performed for `is_odd`. -/
  buildsO : Nat
  /-- `is_even`'s artifact is present in the cache root. -/
  diskE : Bool
  /-- `is_odd`'s artifact is present in the cache root. -/
  diskO : Bool
  /-- `is_even`'s callable is in the session cache. -/
  sessE : Bool
  /-- `is_odd`'s callable is in the session cache. -/
  sessO : Bool
deriving DecidableEq, Repr

/-- The cold-path resolution of `is_even`'s wrapper, mirroring `wrapper`'s
cold path: on a disk hit use the session entry or import; on a miss build
(one build invocation) and import.  All paths populate the slot before the
compiled callable is forwarded to. -/
def resolveE (st : MRState) : MRState :=
  if st.diskE then
    if st.sessE then { st with slotE := true }
    else { st with slotE := true, sessE := true }
  else
    { st with buildsE := st.buildsE + 1, diskE := true, slotE := true, sessE := true }

/-- The cold-path resolution of `is_odd`'s wrapper. -/
def resolveO (st : MRState) : MRState :=
  if st.diskO then
    if st.sessO then { st with slotO := true }
    else { st with slotO := true, sessO := true }
  else
    { st with buildsO := st.buildsO + 1, diskO := true, slotO := true, sessO := true }

mutual
/-- A call into decorated `is_even`: resolve the slot if cold, then run the
compiled body `if n == 0: return True else: return is_odd(n - 1)`, whose
recursive reference re-enters `is_odd`'s wrapper. -/
def isEvenW (st : MRState) (n : Nat) : Bool × MRState :=
  let st1 := if st.slotE then st else resolveE st
  match n with
  | 0 => (true, st1)
  | m + 1 => isOddW st1 m

/-- A call into decorated `is_odd`: resolve the slot if cold, then run the
compiled body `if n == 0: return False else: return is_even(n - 1)`. -/
def isOddW (st : MRState) (n : Nat) : Bool × MRState :=
  let st1 := if st.slotO then st else resolveO st
  match n with
  | 0 => (false, st1)
  | m + 1 => isEvenW st1 m
end

/-- The fresh process state: nothing resolved, built, on disk or cached. -/
def mrFresh : MRState :=
  { slotE := false, slotO := false, buildsE := 0, buildsO := 0,
    diskE := false, diskO := false, sessE := false, sessO := false }

/-! ## Lemmas about `dictMerge` (the `\x7b**a, **b\x7d` merge) -/

/-- Lookup in the overridden copy of `a`: present iff present in `a`, with the
value replaced by `b`'s when `b` has the key. -/
theorem lookup_map_override (a b : PyDict) (k : String) :
    (a.map (fun p => match b.lookup p.1 with | some v => (p.1, v) | none => p)).lookup k
      = (a.lookup k).map (fun v => (b.lookup k).getD v) := by
  induction a with
  | nil => simp
  | cons p a ih =>
    obtain ⟨k1, v1⟩ := p
    by_cases hk : k = k1
    · subst hk
      cases hb : b.lookup k <;> simp [List.lookup, hb]
    · have hbeq : (k == k1) = false := beq_eq_false_iff_ne.mpr hk
      cases hb : b.lookup k1 <;> simp [List.lookup, hb, hbeq, ih]

/-- Lookup in the part of `b` whose keys are new relative to `a`. -/
theorem lookup_filter_new (a b : PyDict) (k : String) :
    (b.filter (fun q => (a.lookup q.1).isNone)).lookup k
      = if (a.lookup k).isNone then b.lookup k else none := by
  induction b with
  | nil => simp
  | cons q b ih =>
    obtain ⟨k2, v2⟩ := q
    by_cases hk : k = k2
    · subst hk
      cases ha : (a.lookup k).isNone <;> simp [List.filter, List.lookup, ha, ih]
    · have hbeq : (k == k2) = false := beq_eq_false_iff_ne.mpr hk
      cases ha : (a.lookup k2).isNone <;> simp [List.filter, List.lookup, ha, hbeq, ih]

/-- Lookup distributes over append, preferring the left list. -/
theorem lookup_append_pydict (l1 l2 : PyDict) (k : String) :
    (l1 ++ l2).lookup k =
      (match l1.lookup k with | some v => some v | none => l2.lookup k) := by
  induction l1 with
  | nil => simp
  | cons p l1 ih =>
    obtain ⟨k1, v1⟩ := p
    by_cases hk : k = k1
    · subst hk; simp [List.lookup]
    · have hbeq : (k == k1) = false := beq_eq_false_iff_ne.mpr hk
      simp [List.lookup, hbeq, ih]

/-- The per-key law of the shallow merge: an override key wins, a
non-overridden key keeps the base value. -/
theorem lookup_dictMerge (a b : PyDict) (k : String) :
    (dictMerge a b).lookup k =
      (match b.lookup k with | some v => some v | none => a.lookup k) := by
  rw [dictMerge, lookup_append_pydict, lookup_map_override, lookup_filter_new]
  cases ha : a.lookup k <;> cases hb : b.lookup k <;> simp [ha, hb]

/-! ## C4 — custom bypass law -/

/-- C4.  Custom bypass law: resolving the profile named `custom` with
directive overrides `D` and flag overrides `F` yields exactly `D` (empty when
absent) and exactly `F` (empty when absent); consequently every resolved
directive key comes from `D` and every resolved flag comes from `F`, so no
`safe`/`fast` default leaks in. -/
theorem claim_C4 : ∀ (iw : Bool) (D : Option PyDict) (F : Option (List String)),
    resolveConfig iw "custom" D F = (D.getD [], F.getD []) ∧
    (∀ k, ((resolveConfig iw "custom" D F).1.lookup k).isSome →
      ((D.getD []).lookup k).isSome) ∧
    (∀ fl, fl ∈ (resolveConfig iw "custom" D F).2 → fl ∈ F.getD []) := by
  intro iw D F
  refine ⟨rfl, ?_, ?_⟩ <;> intro x h <;> simpa [resolveConfig] using h

/-- Witness for C4 at concrete overrides: the `custom` profile with a
directive map overriding a `safe` default key and one flag. -/
theorem claim_C4_witness :
    resolveConfig false "custom" (some [("language_level", .int 2)]) (some ["-g"])
      = ([("language_level", .int 2)], ["-g"]) ∧
    ("-g" ∈ (resolveConfig false "custom" (some [("language_level", PyVal.int 2)])
        (some ["-g"])).2) ∧
    ("-g" ∈ (["-g"] : List String)) :=
  have h : "-g" ∈ (resolveConfig false "custom" (some [("language_level", PyVal.int 2)])
      (some ["-g"])).2 := by decide
  ⟨(claim_C4 false (some [("language_level", .int 2)]) (some ["-g"])).1, h,
   (claim_C4 false (some [("language_level", PyVal.int 2)]) (some ["-g"])).2.2 "-g" h⟩

/-! ## C5 — profile merge law -/

/-- C5.  Profile merge law for the named profiles: for `safe` and `fast` the
resolved directives are the profile defaults with the overrides shallow-merged
on top (an override key replaces the default value, a non-overridden default
is retained) and the resolved flags are the profile defaults with the
overrides appended; an unknown profile name resolves using `safe`'s table
entry. -/
theorem claim_C5 : ∀ (iw : Bool) (D : PyDict) (F : List String),
    (resolveConfig iw "safe" (some D) (some F)
      = (dictMerge safeProfile.1 D, safeProfile.2 ++ F)) ∧
    (resolveConfig iw "fast" (some D) (some F)
      = (dictMerge (fastProfile iw).1 D, (fastProfile iw).2 ++ F)) ∧
    (∀ P : PyDict, ∀ k v, D.lookup k = some v →
      (dictMerge P D).lookup k = some v) ∧
    (∀ P : PyDict, ∀ k, D.lookup k = none →
      (dictMerge P D).lookup k = P.lookup k) ∧
    (∀ p : String, p ≠ "custom" → pyLower p ≠ "safe" → pyLower p ≠ "fast" →
      resolveConfig iw p (some D) (some F) = resolveConfig iw "safe" (some D) (some F)) := by
  intro iw D F
  refine ⟨rfl, rfl, ?_, ?_, ?_⟩
  · intro P k v h
    rw [lookup_dictMerge, h]
  · intro P k h
    rw [lookup_dictMerge, h]
  · intro p h1 h2 h3
    have b2 : (pyLower p == "safe") = false := beq_eq_false_iff_ne.mpr h2
    have b3 : (pyLower p == "fast") = false := beq_eq_false_iff_ne.mpr h3
    have bs : (pyLower "safe" == "safe") = true := by decide
    simp [resolveConfig, opt_profiles, List.lookup, h1, b2, b3, bs]

/-- Witness for C5: the spec's own example — resolving `fast` with a
`boundscheck` override and flag `-X` overrides exactly that key, keeps the
other `fast` defaults, and appends (rather than replaces) the flag; the
unknown name `turbo` resolves like `safe`. -/
theorem claim_C5_witness :
    (resolveConfig false "fast" (some [("boundscheck", .bool true)]) (some ["-X"])
      = (dictMerge (fastProfile false).1 [("boundscheck", .bool true)],
         (fastProfile false).2 ++ ["-X"])) ∧
    ((dictMerge (fastProfile false).1 [("boundscheck", .bool true)]).lookup "boundscheck"
      = some (.bool true)) ∧
    ((dictMerge (fastProfile false).1 [("boundscheck", .bool true)]).lookup "cdivision"
      = ((fastProfile false).1).lookup "cdivision") ∧
    (resolveConfig false "turbo" (some [("boundscheck", .bool true)]) (some ["-X"])
      = resolveConfig false "safe" (some [("boundscheck", .bool true)]) (some ["-X"])) :=
  ⟨(claim_C5 false [("boundscheck", .bool true)] ["-X"]).2.1,
   (claim_C5 false [("boundscheck", .bool true)] ["-X"]).2.2.1
     (fastProfile false).1 "boundscheck" (.bool true) (by decide),
   (claim_C5 false [("boundscheck", .bool true)] ["-X"]).2.2.2.1
     (fastProfile false).1 "cdivision" (by decide),
   (claim_C5 false [("boundscheck", .bool true)] ["-X"]).2.2.2.2
     "turbo" (by decide) (by decide) (by decide)⟩

/-! ## Path lemmas about the dispatcher -/

/-- `run_cython_compile` restores `sys.path` on every exit path: the append is
undone by the pop in the `finally` block. -/
theorem run_cython_compile_sysPath (env : DEnv α β) (cfg : DCfg) (tu bn : String)
    (st : DState α β) : (run_cython_compile env cfg tu bn st).2.sysPath = st.sysPath := by
  unfold run_cython_compile
  split <;> simp

/-- `run_cython_compile` never touches the dispatcher slot. -/
theorem run_cython_compile_slot (env : DEnv α β) (cfg : DCfg) (tu bn : String)
    (st : DState α β) : (run_cython_compile env cfg tu bn st).2.slot = st.slot := by
  unfold run_cython_compile
  split <;> simp

/-- The import section restores `sys.path` on every exit path. -/
theorem importSection_sysPath (env : DEnv α β) (k : String) (st : DState α β) :
    (importSection env k st).2.sysPath = st.sysPath := by
  unfold importSection
  cases env.importResult <;> simp

/-- On an import failure the slot is left as it was. -/
theorem importSection_slot_of_error (env : DEnv α β) (k : String) (st : DState α β)
    (e : PyErr) (h : env.importResult = .error e) :
    (importSection env k st).2.slot = st.slot := by
  unfold importSection
  rw [h]

/-- `importAndCall` restores `sys.path` on every exit path. -/
theorem importAndCall_sysPath (env : DEnv α β) (k : String) (st : DState α β)
    (a : α) (evs : List Ev) :
    (importAndCall env k st a evs).2.1.sysPath = st.sysPath := by
  unfold importAndCall
  have h := importSection_sysPath env k st
  rcases hi : importSection env k st with ⟨r, st'⟩
  rw [hi] at h
  cases r <;> simp [hi] <;> exact h

/-- The disk-miss arm restores `sys.path` on every exit path. -/
theorem coldMiss_sysPath (env : DEnv α β) (cfg : DCfg) (k : String)
    (st : DState α β) (a : α) :
    (coldMiss env cfg k st a).2.1.sysPath = st.sysPath := by
  unfold coldMiss
  split
  · rfl
  · next tu heqg =>
    have h := run_cython_compile_sysPath env cfg tu k
      { st with disk := st.disk ++ [k ++ ".pyx"] }
    rcases hb : run_cython_compile env cfg tu k
        { st with disk := st.disk ++ [k ++ ".pyx"] } with ⟨r, st2⟩
    rw [hb] at h
    cases r <;> simp [hb, importAndCall_sysPath] <;> exact h

/-- The disk-hit arm restores `sys.path` on every exit path. -/
theorem coldHit_sysPath (env : DEnv α β) (k : String) (st : DState α β) (a : α) :
    (coldHit env k st a).2.1.sysPath = st.sysPath := by
  unfold coldHit
  split
  · rfl
  · exact importAndCall_sysPath env k st a _

/-- Whether an `Except` is a success. -/
def isOkE {ε γ : Type} : Except ε γ → Bool
  | .ok _ => true
  | .error _ => false

/-- The error carried by an `Except`, when it is a failure. -/
def errOf {ε γ : Type} : Except ε γ → Option ε
  | .ok _ => none
  | .error e => some e

/-- The events of `importAndCall` extend the accumulated prefix with import
events only (no build, no session check). -/
theorem importAndCall_events (env : DEnv α β) (k : String) (st : DState α β)
    (a : α) (evs : List Ev) :
    (importAndCall env k st a evs).2.2 = evs ++ [.importMod, .call] ∨
    (importAndCall env k st a evs).2.2 = evs ++ [.importMod] := by
  unfold importAndCall importSection
  cases env.importResult <;> simp

/-- `importAndCall` adds no build event. -/
theorem importAndCall_build_count (env : DEnv α β) (k : String) (st : DState α β)
    (a : α) (evs : List Ev) :
    ((importAndCall env k st a evs).2.2).count Ev.build = evs.count Ev.build := by
  rcases importAndCall_events env k st a evs with h | h <;>
    simp [h, List.count_append, List.count_cons]

/-- If `importAndCall` fails, the failure came from the import and the slot is
left as it was. -/
theorem importAndCall_error (env : DEnv α β) (k : String) (st : DState α β)
    (a : α) (evs : List Ev) (e : PyErr)
    (h : (importAndCall env k st a evs).1 = .error e) :
    env.importResult = .error e ∧ (importAndCall env k st a evs).2.1.slot = st.slot := by
  unfold importAndCall importSection at h ⊢
  cases hi : env.importResult <;> rw [hi] at h <;> simp_all

/-- The disk-miss arm performs at most one build. -/
theorem coldMiss_build_count (env : DEnv α β) (cfg : DCfg) (k : String)
    (st : DState α β) (a : α) :
    ((coldMiss env cfg k st a).2.2).count Ev.build ≤ 1 := by
  unfold coldMiss
  split
  · simp [List.count_cons]
  · split
    · simp [List.count_cons]
    · rw [importAndCall_build_count]
      simp [List.count_cons]

/-- The disk-hit arm performs no build. -/
theorem coldHit_build_count (env : DEnv α β) (k : String) (st : DState α β) (a : α) :
    ((coldHit env k st a).2.2).count Ev.build = 0 := by
  unfold coldHit
  split
  · simp [List.count_cons]
  · rw [importAndCall_build_count]
    simp [List.count_cons]

/-! ## C10 — sys.path restoration -/

/-- C10.  sys.path restoration: with the external backend and loader modelled
as path-neutral collaborators, every invocation of the wrapped function —
returning normally or raising at any stage — leaves `sys.path` exactly as it
was, and so does every invocation of the compile routine: each append of the
cache directory is undone by the corresponding pop on every exit path. -/
theorem claim_C10 : ∀ (env : DEnv α β) (cfg : DCfg) (st : DState α β) (a : α),
    ((wrapper env cfg st a).2.1.sysPath = st.sysPath) ∧
    (∀ tu bn, (run_cython_compile env cfg tu bn st).2.sysPath = st.sysPath) := by
  intro env cfg st a
  refine ⟨?_, fun tu bn => run_cython_compile_sysPath env cfg tu bn st⟩
  unfold wrapper
  cases hs : st.slot with
  | some f => simp
  | none =>
    simp only []
    split
    · exact coldMiss_sysPath env cfg _ st a
    · exact coldHit_sysPath env _ st a

/-! ## C3 — idempotent dispatch and slot monotonicity -/

/-- C3.  Idempotent dispatch: once the slot holds a compiled callable `f`,
every call returns `f` applied to the arguments with the state untouched and
the single event `call` — no hash computation, no disk glob, no session
lookup, no build; the slot never reverts to unresolved; any single call
performs at most one build, so `n` further calls after resolution perform
zero further builds (one build total when the first call built). -/
theorem claim_C3 : ∀ (env : DEnv α β) (cfg : DCfg) (st : DState α β) (a : α),
    (∀ f, st.slot = some f → wrapper env cfg st a = (.ok (f a), st, [Ev.call])) ∧
    (st.slot.isSome = true → ((wrapper env cfg st a).2.1.slot).isSome = true) ∧
    (((wrapper env cfg st a).2.2).count Ev.build ≤ 1) ∧
    (∀ f n, st.slot = some f →
      iterateCalls env cfg n st a = (st, List.replicate n Ev.call)) := by
  intro env cfg st a
  have hfast : ∀ f, st.slot = some f → wrapper env cfg st a = (.ok (f a), st, [Ev.call]) := by
    intro f h
    unfold wrapper
    rw [h]
  refine ⟨hfast, ?_, ?_, ?_⟩
  · intro h
    cases hs : st.slot with
    | none => rw [hs] at h; simp at h
    | some f => rw [hfast f hs, hs]; rfl
  · cases hs : st.slot with
    | some f => rw [hfast f hs]; simp
    | none =>
      unfold wrapper
      rw [hs]
      simp only []
      split
      · exact coldMiss_build_count env cfg _ st a
      · rw [coldHit_build_count]
        omega
  · intro f n h
    induction n with
    | zero => simp [iterateCalls]
    | succ m ih =>
      unfold iterateCalls
      rw [hfast f h]
      simp [ih, List.replicate_succ]

/-- Concrete introspection data for a module-level function `f`, used by the
concrete dispatcher scenarios. -/
def introF : Introspection :=
  { funcName := "f"
    funcSource := "@cycompile()\ndef f():\n    return 1"
    moduleName := "m"
    functionNames := ["f"]
    classNames := []
    fileLines := ["import math"]
    astCalls := [] }

/-- The default decorator configuration `@cycompile()`. -/
def cfg0 : DCfg :=
  { opt := "safe", extra_compile_args := none, compiler_directives := none }

/-- A concrete environment in which the backend and the loader succeed. -/
def env0 : DEnv Nat Nat :=
  { isWindows := false
    intro := introF
    cacheDir := "/cycache"
    compileResult := fun _ _ _ => .ok ()
    importResult := .ok (fun n => n + 1)
    artifactSuffix := ".so" }

/-- A state whose dispatcher slot is already resolved. -/
def stResolved : DState Nat Nat :=
  { slot := some (fun n => n + 1), session := [], disk := [], sysPath := ["lib"] }

/-- Witness for C3: with a resolved slot, a call forwards directly and two
further calls produce only call events and leave the state untouched. -/
theorem claim_C3_witness :
    wrapper env0 cfg0 stResolved 3 = (.ok 4, stResolved, [Ev.call]) ∧
    iterateCalls env0 cfg0 2 stResolved 3 = (stResolved, List.replicate 2 Ev.call) :=
  ⟨(claim_C3 env0 cfg0 stResolved 3).1 (fun n => n + 1) rfl,
   (claim_C3 env0 cfg0 stResolved 3).2.2.2 (fun n => n + 1) 2 rfl⟩

/-! ## C8 — failure atomicity and retry -/

/-- On an unresolved slot the wrapper runs the cold path: disk glob, then
either the miss arm or the hit arm. -/
theorem wrapper_cold_eq (env : DEnv α β) (cfg : DCfg) (st : DState α β) (a : α)
    (hs : st.slot = none) :
    wrapper env cfg st a =
      (if (globMatches st.disk
            (computeKey cfg.compiler_directives cfg.extra_compile_args cfg.opt
              env.intro.funcSource) (platformExt env.isWindows)).isEmpty then
        coldMiss env cfg (computeKey cfg.compiler_directives cfg.extra_compile_args
          cfg.opt env.intro.funcSource) st a
      else
        coldHit env (computeKey cfg.compiler_directives cfg.extra_compile_args
          cfg.opt env.intro.funcSource) st a) := by
  unfold wrapper
  rw [hs]

/-- A failing disk-miss arm leaves the slot as it was. -/
theorem coldMiss_error_slot (env : DEnv α β) (cfg : DCfg) (k : String)
    (st : DState α β) (a : α) (e : PyErr)
    (h : (coldMiss env cfg k st a).1 = .error e) :
    (coldMiss env cfg k st a).2.1.slot = st.slot := by
  unfold coldMiss at h ⊢
  split at h
  · simp
  · next tu heqg =>
    have hslot := run_cython_compile_slot env cfg tu k
      { st with disk := st.disk ++ [k ++ ".pyx"] }
    rcases hb : run_cython_compile env cfg tu k
        { st with disk := st.disk ++ [k ++ ".pyx"] } with ⟨r, st2⟩
    rw [hb] at hslot h
    cases r with
    | error e2 => simpa using hslot
    | ok u =>
      simp only [] at h ⊢
      have := (importAndCall_error env k st2 a _ e h).2
      rw [this]
      simpa using hslot

/-- A failing disk-hit arm leaves the slot as it was. -/
theorem coldHit_error_slot (env : DEnv α β) (k : String) (st : DState α β)
    (a : α) (e : PyErr) (h : (coldHit env k st a).1 = .error e) :
    (coldHit env k st a).2.1.slot = st.slot := by
  unfold coldHit at h ⊢
  split at h
  · simp at h
  · exact (importAndCall_error env k st a _ e h).2

/-- The disk-miss arm's event trace always starts with the hash computation. -/
theorem coldMiss_head (env : DEnv α β) (cfg : DCfg) (k : String)
    (st : DState α β) (a : α) :
    ((coldMiss env cfg k st a).2.2).head? = some Ev.computeHash := by
  unfold coldMiss
  split
  · rfl
  · split
    · rfl
    · rcases importAndCall_events env k _ a
        [.computeHash, .globDisk, .extract, .writePyx, .build] with h | h <;> rw [h] <;> rfl

/-- The disk-hit arm's event trace always starts with the hash computation. -/
theorem coldHit_head (env : DEnv α β) (k : String) (st : DState α β) (a : α) :
    ((coldHit env k st a).2.2).head? = some Ev.computeHash := by
  unfold coldHit
  split
  · rfl
  · rcases importAndCall_events env k st a
      [.computeHash, .globDisk, .checkSession] with h | h <;> rw [h] <;> rfl

/-- C8.  Failure atomicity and retry: every error raised during a cold
invocation surfaces to the caller exactly as raised — an extraction failure
propagates with the state fully untouched, a backend compile failure and an
load failure each propagate verbatim — and any failing call leaves the slot
unresolved with `sys.path` restored, so the next invocation re-enters the
cold pipeline from the hash computation. -/
theorem claim_C8 : ∀ (env : DEnv α β) (cfg : DCfg) (st : DState α β) (a : α) (e : PyErr),
    ((wrapper env cfg st a).1 = .error e →
      (wrapper env cfg st a).2.1.slot = none ∧
      (wrapper env cfg st a).2.1.sysPath = st.sysPath) ∧
    (st.slot = none →
      (globMatches st.disk (computeKey cfg.compiler_directives cfg.extra_compile_args
        cfg.opt env.intro.funcSource) (platformExt env.isWindows)).isEmpty = true →
      generate_cython_source env.intro = .error e →
      wrapper env cfg st a = (.error e, st, [.computeHash, .globDisk, .extract])) ∧
    (st.slot = none →
      (globMatches st.disk (computeKey cfg.compiler_directives cfg.extra_compile_args
        cfg.opt env.intro.funcSource) (platformExt env.isWindows)).isEmpty = true →
      isOkE (generate_cython_source env.intro) = true →
      (∀ tu d fl, env.compileResult tu d fl = .error e) →
      (wrapper env cfg st a).1 = .error e) ∧
    (st.slot = none →
      (globMatches st.disk (computeKey cfg.compiler_directives cfg.extra_compile_args
        cfg.opt env.intro.funcSource) (platformExt env.isWindows)).isEmpty = false →
      st.session.lookup (computeKey cfg.compiler_directives cfg.extra_compile_args
        cfg.opt env.intro.funcSource) = none →
      env.importResult = .error e →
      (wrapper env cfg st a).1 = .error e) ∧
    (st.slot = none → ((wrapper env cfg st a).2.2).head? = some Ev.computeHash) := by
  intro env cfg st a e
  refine ⟨?_, ?_, ?_, ?_, ?_⟩
  · intro h
    cases hs : st.slot with
    | some f =>
      unfold wrapper at h
      rw [hs] at h
      simp at h
    | none =>
      rw [wrapper_cold_eq env cfg st a hs] at h ⊢
      by_cases hg : (globMatches st.disk
          (computeKey cfg.compiler_directives cfg.extra_compile_args cfg.opt
            env.intro.funcSource) (platformExt env.isWindows)).isEmpty
      · rw [if_pos hg] at h ⊢
        exact ⟨(coldMiss_error_slot env cfg _ st a e h).trans hs,
          coldMiss_sysPath env cfg _ st a⟩
      · rw [if_neg hg] at h ⊢
        exact ⟨(coldHit_error_slot env _ st a e h).trans hs,
          coldHit_sysPath env _ st a⟩
  · intro hs hg hgen
    rw [wrapper_cold_eq env cfg st a hs, if_pos hg]
    unfold coldMiss
    rw [hgen]
  · intro hs hg hok hcomp
    rw [wrapper_cold_eq env cfg st a hs, if_pos hg]
    unfold coldMiss
    cases hgen : generate_cython_source env.intro with
    | error e2 => rw [hgen] at hok; simp [isOkE] at hok
    | ok tu =>
      dsimp only
      unfold run_cython_compile
      rw [hcomp tu
        (resolveConfig env.isWindows cfg.opt cfg.compiler_directives cfg.extra_compile_args).1
        (resolveConfig env.isWindows cfg.opt cfg.compiler_directives cfg.extra_compile_args).2]
  · intro hs hg hsess himp
    rw [wrapper_cold_eq env cfg st a hs, if_neg (by simp [hg])]
    unfold coldHit
    rw [hsess]
    unfold importAndCall importSection
    rw [himp]
  · intro hs
    rw [wrapper_cold_eq env cfg st a hs]
    by_cases hg : (globMatches st.disk
        (computeKey cfg.compiler_directives cfg.extra_compile_args cfg.opt
          env.intro.funcSource) (platformExt env.isWindows)).isEmpty
    · rw [if_pos hg]; exact coldMiss_head env cfg _ st a
    · rw [if_neg hg]; exact coldHit_head env _ st a

/-- An environment whose backend rejects every translation unit. -/
def envCompileFail : DEnv Nat Nat :=
  { env0 with compileResult := fun _ _ _ => .error (.compile "nope") }

/-- The fresh unresolved state. -/
def stFresh : DState Nat Nat :=
  { slot := none, session := [], disk := [], sysPath := ["lib"] }

/-- Witness for C8: with a failing backend, the first cold call surfaces the
compile error, leaves the slot unresolved and `sys.path` intact, and the next
call starts over at the hash computation. -/
theorem claim_C8_witness :
    (wrapper envCompileFail cfg0 stFresh 3).1 = .error (.compile "nope") ∧
    (wrapper envCompileFail cfg0 stFresh 3).2.1.slot = none ∧
    (wrapper envCompileFail cfg0 stFresh 3).2.1.sysPath = stFresh.sysPath ∧
    ((wrapper envCompileFail cfg0 stFresh 3).2.2).head? = some Ev.computeHash :=
  have h1 : (wrapper envCompileFail cfg0 stFresh 3).1 = .error (.compile "nope") :=
    (claim_C8 envCompileFail cfg0 stFresh 3 (.compile "nope")).2.2.1 rfl rfl
      (by decide) (fun _ _ _ => rfl)
  have h2 := (claim_C8 envCompileFail cfg0 stFresh 3 (.compile "nope")).1 h1
  ⟨h1, h2.1, h2.2, (claim_C8 envCompileFail cfg0 stFresh 3 (.compile "nope")).2.2.2.2 rfl⟩

/-! ## C7 — cold-path cache lookup order -/

/-- The first two events of the disk-miss arm. -/
theorem coldMiss_take2 (env : DEnv α β) (cfg : DCfg) (k : String)
    (st : DState α β) (a : α) :
    ((coldMiss env cfg k st a).2.2).take 2 = [Ev.computeHash, Ev.globDisk] := by
  unfold coldMiss
  split
  · rfl
  · split
    · rfl
    · rcases importAndCall_events env k _ a
        [.computeHash, .globDisk, .extract, .writePyx, .build] with h | h <;> rw [h] <;> rfl

/-- The first two events of the disk-hit arm. -/
theorem coldHit_take2 (env : DEnv α β) (k : String) (st : DState α β) (a : α) :
    ((coldHit env k st a).2.2).take 2 = [Ev.computeHash, Ev.globDisk] := by
  unfold coldHit
  split
  · rfl
  · rcases importAndCall_events env k st a
      [.computeHash, .globDisk, .checkSession] with h | h <;> rw [h] <;> rfl

/-- The disk-miss arm never consults the session cache. -/
theorem coldMiss_no_checkSession (env : DEnv α β) (cfg : DCfg) (k : String)
    (st : DState α β) (a : α) :
    Ev.checkSession ∉ (coldMiss env cfg k st a).2.2 := by
  unfold coldMiss
  split
  · simp
  · split
    · simp
    · rcases importAndCall_events env k _ a
        [.computeHash, .globDisk, .extract, .writePyx, .build] with h | h <;> rw [h] <;> simp

/-- When extraction succeeds, the disk-miss arm always invokes a build. -/
theorem coldMiss_build_mem (env : DEnv α β) (cfg : DCfg) (k : String)
    (st : DState α β) (a : α) (hok : isOkE (generate_cython_source env.intro) = true) :
    Ev.build ∈ (coldMiss env cfg k st a).2.2 := by
  unfold coldMiss
  cases hgen : generate_cython_source env.intro with
  | error e => rw [hgen] at hok; simp [isOkE] at hok
  | ok tu =>
    dsimp only
    split
    · simp
    · next u st2 heq =>
      rcases importAndCall_events env k st2 a
        [.computeHash, .globDisk, .extract, .writePyx, .build] with h | h <;> rw [h] <;> simp

/-- C7 (amended).  Cold-path lookup order as implemented: on an unresolved
slot the dispatcher computes the key and globs the on-disk tier first; the
in-process tier is consulted only after a disk hit; a build is invoked exactly
when the disk glob misses (and extraction succeeds) — even if the in-process
tier already holds the identifier; and against a pre-populated disk tier the
call performs zero builds and returns the correct result through the session
entry or the import. -/
theorem claim_C7 : ∀ (env : DEnv α β) (cfg : DCfg) (st : DState α β) (a : α),
    st.slot = none →
    (((wrapper env cfg st a).2.2).take 2 = [Ev.computeHash, Ev.globDisk]) ∧
    ((globMatches st.disk (computeKey cfg.compiler_directives cfg.extra_compile_args
        cfg.opt env.intro.funcSource) (platformExt env.isWindows)).isEmpty = false →
      Ev.build ∉ (wrapper env cfg st a).2.2) ∧
    (Ev.checkSession ∈ (wrapper env cfg st a).2.2 →
      (globMatches st.disk (computeKey cfg.compiler_directives cfg.extra_compile_args
        cfg.opt env.intro.funcSource) (platformExt env.isWindows)).isEmpty = false) ∧
    ((globMatches st.disk (computeKey cfg.compiler_directives cfg.extra_compile_args
        cfg.opt env.intro.funcSource) (platformExt env.isWindows)).isEmpty = true →
      isOkE (generate_cython_source env.intro) = true →
      Ev.build ∈ (wrapper env cfg st a).2.2) ∧
    (∀ f, (globMatches st.disk (computeKey cfg.compiler_directives cfg.extra_compile_args
        cfg.opt env.intro.funcSource) (platformExt env.isWindows)).isEmpty = false →
      st.session.lookup (computeKey cfg.compiler_directives cfg.extra_compile_args
        cfg.opt env.intro.funcSource) = some f →
      (wrapper env cfg st a).1 = .ok (f a)) ∧
    (∀ g, (globMatches st.disk (computeKey cfg.compiler_directives cfg.extra_compile_args
        cfg.opt env.intro.funcSource) (platformExt env.isWindows)).isEmpty = false →
      st.session.lookup (computeKey cfg.compiler_directives cfg.extra_compile_args
        cfg.opt env.intro.funcSource) = none →
      env.importResult = .ok g →
      (wrapper env cfg st a).1 = .ok (g a)) := by
  intro env cfg st a hs
  rw [wrapper_cold_eq env cfg st a hs]
  by_cases hg : (globMatches st.disk (computeKey cfg.compiler_directives
      cfg.extra_compile_args cfg.opt env.intro.funcSource)
      (platformExt env.isWindows)).isEmpty
  · rw [if_pos hg]
    refine ⟨coldMiss_take2 env cfg _ st a, ?_, ?_, ?_, ?_, ?_⟩
    · intro hfalse; rw [hg] at hfalse; cases hfalse
    · intro hmem; exact absurd hmem (coldMiss_no_checkSession env cfg _ st a)
    · intro _ hok; exact coldMiss_build_mem env cfg _ st a hok
    · intro f hfalse; rw [hg] at hfalse; cases hfalse
    · intro g hfalse; rw [hg] at hfalse; cases hfalse
  · rw [if_neg hg]
    have hg' : (globMatches st.disk (computeKey cfg.compiler_directives
        cfg.extra_compile_args cfg.opt env.intro.funcSource)
        (platformExt env.isWindows)).isEmpty = false := by
      cases hb : (globMatches st.disk (computeKey cfg.compiler_directives
          cfg.extra_compile_args cfg.opt env.intro.funcSource)
          (platformExt env.isWindows)).isEmpty
      · rfl
      · exact absurd hb hg
    refine ⟨coldHit_take2 env _ st a, ?_, fun _ => hg', ?_, ?_, ?_⟩
    · intro _
      exact List.count_eq_zero.mp (coldHit_build_count env _ st a)
    · intro htrue; rw [hg'] at htrue; cases htrue
    · intro f _ hsess
      unfold coldHit
      rw [hsess]
    · intro g _ hsess himp
      unfold coldHit
      rw [hsess]
      unfold importAndCall importSection
      rw [himp]

/-- A state whose in-process tier already holds the callable for the computed
identifier while the disk tier is empty. -/
def stSessionOnly : DState Nat Nat :=
  { slot := none
    session := [(computeKey cfg0.compiler_directives cfg0.extra_compile_args
      cfg0.opt env0.intro.funcSource, fun n => n + 1)]
    disk := []
    sysPath := [] }

set_option maxRecDepth 100000 in
/-- Counterexample for C7 as stated: the in-process loaded tier holds the
computed identifier, yet because the disk glob comes first and misses, the
call performs a build and never consults the session tier — refuting
"loaded tier first" and "build only when both tiers miss". -/
theorem claim_C7_counterexample :
    ((stSessionOnly.session.lookup (computeKey cfg0.compiler_directives
      cfg0.extra_compile_args cfg0.opt env0.intro.funcSource)).isSome = true) ∧
    Ev.build ∈ (wrapper env0 cfg0 stSessionOnly 3).2.2 ∧
    Ev.checkSession ∉ (wrapper env0 cfg0 stSessionOnly 3).2.2 := by
  refine ⟨?_, by decide, by decide⟩
  simp [stSessionOnly, List.lookup]

set_option maxRecDepth 100000 in
/-- Witness for C7 (amended) on concrete data: a pre-populated disk tier with
a session miss performs no build and returns via the import; the first two
events are the hash and the disk glob. -/
theorem claim_C7_witness :
    (((wrapper env0 cfg0
        { slot := none, session := [],
          disk := [computeKey cfg0.compiler_directives cfg0.extra_compile_args
            cfg0.opt env0.intro.funcSource ++ ".cpython.so"],
          sysPath := [] } 3).2.2).take 2 = [Ev.computeHash, Ev.globDisk]) ∧
    (Ev.build ∉ (wrapper env0 cfg0
        { slot := none, session := [],
          disk := [computeKey cfg0.compiler_directives cfg0.extra_compile_args
            cfg0.opt env0.intro.funcSource ++ ".cpython.so"],
          sysPath := [] } 3).2.2) ∧
    ((wrapper env0 cfg0
        { slot := none, session := [],
          disk := [computeKey cfg0.compiler_directives cfg0.extra_compile_args
            cfg0.opt env0.intro.funcSource ++ ".cpython.so"],
          sysPath := [] } 3).1 = .ok 4) := by
  have hglob : (globMatches
      [computeKey cfg0.compiler_directives cfg0.extra_compile_args
        cfg0.opt env0.intro.funcSource ++ ".cpython.so"]
      (computeKey cfg0.compiler_directives cfg0.extra_compile_args
        cfg0.opt env0.intro.funcSource)
      (platformExt env0.isWindows)).isEmpty = false := by decide
  have h := claim_C7 env0 cfg0
    { slot := none, session := [],
      disk := [computeKey cfg0.compiler_directives cfg0.extra_compile_args
        cfg0.opt env0.intro.funcSource ++ ".cpython.so"],
      sysPath := [] } 3 rfl
  exact ⟨h.1, h.2.1 hglob, h.2.2.2.2.2 (fun n => n + 1) hglob rfl rfl⟩

/-! ## C2 — mutual recursion boundedness -/

/-- Resolution sets `is_even`'s slot. -/
theorem resolveE_slotE (st : MRState) : (resolveE st).slotE = true := by
  unfold resolveE
  split
  · split <;> rfl
  · rfl

/-- Resolution of `is_even` does not touch `is_odd`'s fields. -/
theorem resolveE_odd_fields (st : MRState) :
    (resolveE st).slotO = st.slotO ∧ (resolveE st).buildsO = st.buildsO := by
  unfold resolveE
  split
  · split <;> exact ⟨rfl, rfl⟩
  · exact ⟨rfl, rfl⟩

/-- Resolution of `is_even` performs at most one build for `is_even`. -/
theorem resolveE_buildsE (st : MRState) : (resolveE st).buildsE ≤ st.buildsE + 1 := by
  unfold resolveE
  split
  · split <;> simp
  · simp

/-- Resolution sets `is_odd`'s slot. -/
theorem resolveO_slotO (st : MRState) : (resolveO st).slotO = true := by
  unfold resolveO
  split
  · split <;> rfl
  · rfl

/-- Resolution of `is_odd` does not touch `is_even`'s fields. -/
theorem resolveO_even_fields (st : MRState) :
    (resolveO st).slotE = st.slotE ∧ (resolveO st).buildsE = st.buildsE := by
  unfold resolveO
  split
  · split <;> exact ⟨rfl, rfl⟩
  · exact ⟨rfl, rfl⟩

/-- Resolution of `is_odd` performs at most one build for `is_odd`. -/
theorem resolveO_buildsO (st : MRState) : (resolveO st).buildsO ≤ st.buildsO + 1 := by
  unfold resolveO
  split
  · split <;> simp
  · simp

/-- Per-slot build budget of one call into either wrapper, from any state:
the result is the parity of the argument, each function builds at most once
(never when its slot is already resolved), and resolved slots stay resolved. -/
theorem mr_aux : ∀ (n : Nat) (st : MRState),
    ((isEvenW st n).1 = decide (n % 2 = 0) ∧
     (isEvenW st n).2.buildsE ≤ st.buildsE + (if st.slotE then 0 else 1) ∧
     (isEvenW st n).2.buildsO ≤ st.buildsO + (if st.slotO then 0 else 1) ∧
     (st.slotE = true → (isEvenW st n).2.slotE = true) ∧
     (st.slotO = true → (isEvenW st n).2.slotO = true)) ∧
    ((isOddW st n).1 = decide (n % 2 = 1) ∧
     (isOddW st n).2.buildsE ≤ st.buildsE + (if st.slotE then 0 else 1) ∧
     (isOddW st n).2.buildsO ≤ st.buildsO + (if st.slotO then 0 else 1) ∧
     (st.slotO = true → (isOddW st n).2.slotO = true) ∧
     (st.slotE = true → (isOddW st n).2.slotE = true)) := by
  intro n
  induction n with
  | zero =>
    intro st
    constructor
    · unfold isEvenW
      by_cases hE : st.slotE <;>
        simp [hE, resolveE_slotE, resolveE_buildsE, (resolveE_odd_fields st).1,
          (resolveE_odd_fields st).2]
    · unfold isOddW
      by_cases hO : st.slotO <;>
        simp [hO, resolveO_slotO, resolveO_buildsO, (resolveO_even_fields st).1,
          (resolveO_even_fields st).2]
  | succ m ih =>
    intro st
    constructor
    · unfold isEvenW
      by_cases hE : st.slotE = true
      · rw [if_pos hE]
        have h := (ih st).2
        exact ⟨by rw [h.1]; exact decide_eq_decide.mpr (by omega),
          h.2.1, h.2.2.1, fun _ => h.2.2.2.2 hE, fun hh => h.2.2.2.1 hh⟩
      · rw [if_neg hE]
        have h := (ih (resolveE st)).2
        have hodd := resolveE_odd_fields st
        refine ⟨by rw [h.1]; exact decide_eq_decide.mpr (by omega), ?_, ?_,
          fun _ => h.2.2.2.2 (resolveE_slotE st),
          fun hh => h.2.2.2.1 (hodd.1.trans hh)⟩
        · rw [if_neg hE]
          calc (isOddW (resolveE st) m).2.buildsE
              ≤ (resolveE st).buildsE + (if (resolveE st).slotE = true then 0 else 1) := h.2.1
            _ = (resolveE st).buildsE := by rw [resolveE_slotE]; simp
            _ ≤ st.buildsE + 1 := resolveE_buildsE st
        · calc (isOddW (resolveE st) m).2.buildsO
              ≤ (resolveE st).buildsO + (if (resolveE st).slotO = true then 0 else 1) := h.2.2.1
            _ = st.buildsO + (if st.slotO = true then 0 else 1) := by rw [hodd.1, hodd.2]
    · unfold isOddW
      by_cases hO : st.slotO = true
      · rw [if_pos hO]
        have h := (ih st).1
        exact ⟨by rw [h.1]; exact decide_eq_decide.mpr (by omega),
          h.2.1, h.2.2.1, fun _ => h.2.2.2.2 hO, fun hh => h.2.2.2.1 hh⟩
      · rw [if_neg hO]
        have h := (ih (resolveO st)).1
        have heven := resolveO_even_fields st
        refine ⟨by rw [h.1]; exact decide_eq_decide.mpr (by omega), ?_, ?_,
          fun _ => h.2.2.2.2 (resolveO_slotO st),
          fun hh => h.2.2.2.1 (heven.1.trans hh)⟩
        · calc (isEvenW (resolveO st) m).2.buildsE
              ≤ (resolveO st).buildsE + (if (resolveO st).slotE = true then 0 else 1) := h.2.1
            _ = st.buildsE + (if st.slotE = true then 0 else 1) := by rw [heven.1, heven.2]
        · rw [if_neg hO]
          calc (isEvenW (resolveO st) m).2.buildsO
              ≤ (resolveO st).buildsO + (if (resolveO st).slotO = true then 0 else 1) := h.2.2.1
            _ = (resolveO st).buildsO := by rw [resolveO_slotO]; simp
            _ ≤ st.buildsO + 1 := resolveO_buildsO st

/-- C2.  Mutual recursion boundedness: from the fresh state a first (cold)
call into either decorated function terminates (the definitions are total)
with the correct parity result, performs at most one build per function —
hence at most two in total — and the spec's concrete scenario `is_even(5)`
returns `False` after exactly one build of each function. -/
theorem claim_C2 :
    (∀ n : Nat,
      (isEvenW mrFresh n).1 = decide (n % 2 = 0) ∧
      (isEvenW mrFresh n).2.buildsE ≤ 1 ∧
      (isEvenW mrFresh n).2.buildsO ≤ 1 ∧
      (isEvenW mrFresh n).2.buildsE + (isEvenW mrFresh n).2.buildsO ≤ 2 ∧
      (isOddW mrFresh n).1 = decide (n % 2 = 1) ∧
      (isOddW mrFresh n).2.buildsE ≤ 1 ∧
      (isOddW mrFresh n).2.buildsO ≤ 1) ∧
    (isEvenW mrFresh 5).1 = false ∧
    (isEvenW mrFresh 5).2.buildsE = 1 ∧
    (isEvenW mrFresh 5).2.buildsO = 1 := by
  refine ⟨?_, by decide, by decide, by decide⟩
  intro n
  have hE := (mr_aux n mrFresh).1
  have hO := (mr_aux n mrFresh).2
  have bE : (isEvenW mrFresh n).2.buildsE ≤ 1 := by
    have := hE.2.1
    simpa [mrFresh] using this
  have bO : (isEvenW mrFresh n).2.buildsO ≤ 1 := by
    have := hE.2.2.1
    simpa [mrFresh] using this
  refine ⟨hE.1, bE, bO, by omega, hO.1, ?_, ?_⟩
  · have := hO.2.1
    simpa [mrFresh] using this
  · have := hO.2.2.1
    simpa [mrFresh] using this

/-! ## C9 — decorator stripping -/

/-- Every line kept by the loop is one of the input lines, in order and
unchanged. -/
theorem processDecLines_sublist : ∀ (ls : List String) (b : Bool),
    List.Sublist (processDecLines ls b) ls := by
  intro ls
  induction ls with
  | nil => intro b; cases b <;> exact List.Sublist.refl []
  | cons l ls ih =>
    intro b
    cases b with
    | true =>
      unfold processDecLines
      split
      · exact (ih false).cons l
      · exact (ih true).cons l
    | false =>
      unfold processDecLines
      split
      · split
        · exact (ih false).cons₂ l
        · split
          · exact (ih false).cons l
          · exact (ih true).cons l
      · exact (ih false).cons₂ l

/-- Any kept line that reads as a decorator line begins with a whitelisted
decorator. -/
theorem processDecLines_kept_at : ∀ (ls : List String) (b : Bool) (l : String),
    l ∈ processDecLines ls b → pyStartswith (pyStrip l) "@" = true →
    isKeptDec l = true := by
  intro ls
  induction ls with
  | nil => intro b l hmem; cases b <;> simp [processDecLines] at hmem
  | cons l' ls ih =>
    intro b l hmem hat
    cases b with
    | true =>
      unfold processDecLines at hmem
      split at hmem
      · exact ih false l hmem hat
      · exact ih true l hmem hat
    | false =>
      unfold processDecLines at hmem
      split at hmem
      · split at hmem
        · next hkeep =>
          rcases List.mem_cons.mp hmem with rfl | hmem2
          · exact hkeep
          · exact ih false l hmem2 hat
        · split at hmem
          · exact ih false l hmem hat
          · exact ih true l hmem hat
      · next hnotat =>
        rcases List.mem_cons.mp hmem with rfl | hmem2
        · exact absurd hat hnotat
        · exact ih false l hmem2 hat

/-- Two prefixes of one list are comparable. -/
theorem prefix_comparable {l1 l2 l3 : List Char} (h1 : l1 <+: l3) (h2 : l2 <+: l3) :
    l1 <+: l2 ∨ l2 <+: l1 :=
  List.prefix_or_prefix_of_prefix h1 h2

/-- No kept line begins (after stripping) with this system's own decorator
`@cycompile`. -/
theorem processDecLines_no_cycompile : ∀ (ls : List String) (b : Bool) (l : String),
    l ∈ processDecLines ls b → pyStartswith (pyStrip l) "@cycompile" = false := by
  intro ls b l hmem
  cases hcy : pyStartswith (pyStrip l) "@cycompile" with
  | false => rfl
  | true =>
    exfalso
    have hcyp : "@cycompile".data <+: (pyStrip l).data :=
      List.isPrefixOf_iff_prefix.mp hcy
    have hat : pyStartswith (pyStrip l) "@" = true := by
      apply List.isPrefixOf_iff_prefix.mpr
      exact List.IsPrefix.trans (by decide) hcyp
    have hkeep := processDecLines_kept_at ls b l hmem hat
    unfold isKeptDec keep_decorators at hkeep
    simp only [List.any_cons, List.any_nil, Bool.or_eq_true, Bool.or_false] at hkeep
    rcases hkeep with h | h | h <;>
    · have hp : _ <+: (pyStrip l).data := List.isPrefixOf_iff_prefix.mp h
      rcases prefix_comparable hcyp hp with hc | hc
      · exact absurd hc (by decide)
      · exact absurd hc (by decide)

/-- Unfolding equation for the loop in skip state. -/
theorem processDecLines_cons_true (l : String) (ls : List String) :
    processDecLines (l :: ls) true =
      if pyEndswith (pyStrip l) ")" = true then processDecLines ls false
      else processDecLines ls true := rfl

/-- Unfolding equation for `skipThroughClose`. -/
theorem skipThroughClose_cons (l : String) (ls : List String) :
    skipThroughClose (l :: ls) =
      if pyEndswith (pyStrip l) ")" = true then ls else skipThroughClose ls := rfl

/-- The multi-line skip consumes lines up to and including the first whose
stripped form ends in a closing parenthesis, then resumes normally. -/
theorem processDecLines_skip : ∀ ls : List String,
    processDecLines ls true = processDecLines (skipThroughClose ls) false := by
  intro ls
  induction ls with
  | nil => rfl
  | cons l ls ih =>
    rw [processDecLines_cons_true, skipThroughClose_cons]
    cases hc : pyEndswith (pyStrip l) ")" <;> simp [hc, ih]

/-- When every decorator line is single-line (whitelisted or closing on its
own line), the loop is exactly a filter: a decorator line is kept iff it
begins with a whitelisted decorator, and every non-decorator line is kept. -/
theorem processDecLines_filter : ∀ ls : List String,
    (∀ l ∈ ls, pyStartswith (pyStrip l) "@" = true →
      (isKeptDec l = true ∨ pyEndswith (pyStrip l) ")" = true)) →
    processDecLines ls false =
      ls.filter (fun l => !pyStartswith (pyStrip l) "@" || isKeptDec l) := by
  intro ls
  induction ls with
  | nil => intro _; rfl
  | cons l ls ih =>
    intro hwf
    have hrest : ∀ l2 ∈ ls, pyStartswith (pyStrip l2) "@" = true →
        (isKeptDec l2 = true ∨ pyEndswith (pyStrip l2) ")" = true) :=
      fun l2 h2 => hwf l2 (List.mem_cons_of_mem l h2)
    unfold processDecLines
    split
    · next hat =>
      split
      · next hkeep =>
        rw [List.filter_cons_of_pos (by simp [hkeep]), ih hrest]
      · next hkeep =>
        split
        · next hclose =>
          rw [List.filter_cons_of_neg (by simp [hat, Bool.not_eq_true] at hkeep ⊢; exact hkeep),
            ih hrest]
        · next hclose =>
          rcases hwf l (List.mem_cons_self l ls) hat with hk | hc
          · exact absurd hk (by simpa using hkeep)
          · exact absurd hc (by simpa using hclose)
    · next hat =>
      rw [List.filter_cons_of_pos (by simp [Bool.not_eq_true] at hat ⊢; simp [hat]),
        ih hrest]

/-- C9.  Decorator stripping: the output of `remove_decorators`'s line loop
never contains a line of this system's own `@cycompile` decorator; a kept
decorator-looking line always begins with one of the whitelist
`@staticmethod`/`@classmethod`/`@property`; a multi-line decorator is skipped
by consuming lines through the first one ending in `)`; every kept line is an
input line kept unchanged and in order; and in the single-line well-formed
case the loop keeps a decorator line iff it begins with a whitelisted
decorator and keeps every non-decorator body line. -/
theorem claim_C9 :
    (∀ (ls : List String) (b : Bool) (l : String),
      l ∈ processDecLines ls b → pyStartswith (pyStrip l) "@" = true →
      isKeptDec l = true) ∧
    (∀ (ls : List String) (b : Bool) (l : String),
      l ∈ processDecLines ls b → pyStartswith (pyStrip l) "@cycompile" = false) ∧
    (∀ (ls : List String) (b : Bool), List.Sublist (processDecLines ls b) ls) ∧
    (∀ ls : List String,
      processDecLines ls true = processDecLines (skipThroughClose ls) false) ∧
    (∀ ls : List String,
      (∀ l ∈ ls, pyStartswith (pyStrip l) "@" = true →
        (isKeptDec l = true ∨ pyEndswith (pyStrip l) ")" = true)) →
      processDecLines ls false =
        ls.filter (fun l => !pyStartswith (pyStrip l) "@" || isKeptDec l)) :=
  ⟨processDecLines_kept_at, processDecLines_no_cycompile, processDecLines_sublist,
   processDecLines_skip, processDecLines_filter⟩

/-- Witness for C9 on the decorated source of `f`: the `@cycompile()`
decorator line is removed, the body is preserved verbatim, and a whitelisted
decorator together with a multi-line decorator behave as specified. -/
theorem claim_C9_witness :
    processDecLines ["@cycompile()", "@property", "def f():", "    return 1"] false =
      (["@cycompile()", "@property", "def f():", "    return 1"].filter
        (fun l => !pyStartswith (pyStrip l) "@" || isKeptDec l)) ∧
    processDecLines
      ["@cycompile(", "    opt = 1)", "def g():", "    return 2"] true =
      processDecLines
        (skipThroughClose ["@cycompile(", "    opt = 1)", "def g():", "    return 2"]) false ∧
    pyStartswith (pyStrip "@property") "@cycompile" = false :=
  ⟨claim_C9.2.2.2.2 ["@cycompile()", "@property", "def f():", "    return 1"] (by decide),
   claim_C9.2.2.2.1 ["@cycompile(", "    opt = 1)", "def g():", "    return 2"],
   claim_C9.2.1 ["@property", "x"] false "@property" (by decide)⟩

/-! ## C1 — cache-key determinism -/

set_option maxRecDepth 100000 in
/-- Counterexample for C1 as stated: the decorator applications
`@cycompile()` (directives absent) and `@cycompile(compiler_directives=\x7b\x7d)`
on the same function `f` resolve to the same compiler configuration, and the
extracted translation unit is identical because the function is the same —
yet the computed cache identifiers differ, because the key hashes the raw
decorator arguments (`str(None)` contributes nothing, `str(\x7b\x7d)`
contributes two characters), not the resolved configuration. -/
theorem claim_C1_counterexample :
    (resolveConfig false "safe" (some []) none = resolveConfig false "safe" none none) ∧
    (computeKey (some []) none "safe" introF.funcSource ≠
      computeKey none none "safe" introF.funcSource) :=
  ⟨by decide, by decide⟩

/-- C1 (amended).  The cache identifier is computed from the raw decorator
arguments and the function's raw captured source: it always carries the fixed
namespace tag `mod_`, and it is a pure function of the serialized parameter
string together with the raw source — equal raw inputs always give the same
identifier, within and across processes. -/
theorem claim_C1 :
    (∀ (cd : Option PyDict) (eca : Option (List String)) (opt src : String),
      pyStartswith (computeKey cd eca opt src) "mod_" = true) ∧
    (∀ (cd cd2 : Option PyDict) (eca eca2 : Option (List String))
      (opt opt2 src src2 : String),
      paramsString cd eca opt = paramsString cd2 eca2 opt2 → src = src2 →
      computeKey cd eca opt src = computeKey cd2 eca2 opt2 src2) := by
  constructor
  · intro cd eca opt src
    unfold computeKey
    apply List.isPrefixOf_iff_prefix.mpr
    rw [String.data_append]
    exact List.prefix_append _ _
  · intro cd cd2 eca eca2 opt opt2 src src2 h1 h2
    unfold computeKey
    rw [h1, h2]

set_option maxRecDepth 100000 in
/-- Witness for C1 (amended): two syntactically different raw inputs with the
same serialized parameter string give the same identifier, and a concrete
identifier carries the `mod_` tag. -/
theorem claim_C1_witness :
    (computeKey none none "\x7b\x7dsafe" introF.funcSource =
      computeKey (some []) none "safe" introF.funcSource) ∧
    pyStartswith (computeKey none none "safe" introF.funcSource) "mod_" = true :=
  ⟨claim_C1.2 none (some []) none none "\x7b\x7dsafe" "safe"
      introF.funcSource introF.funcSource (by decide) rfl,
   claim_C1.1 none none "safe" introF.funcSource⟩

/-! ## C6 — scope rejection -/

/-- When the captured source is indented, the parse inside
`get_called_functions` raises and extraction fails with `IndentationError`. -/
theorem generate_indentation (i : Introspection)
    (h : astParseRaises i.funcSource = true) :
    generate_cython_source i = .error .indentation := by
  unfold generate_cython_source extract_all_imports get_called_functions
  rw [h]
  rfl

/-- C6 (amended).  Scope rejection as implemented: the code has no scope
classifier and no `ScopeError` with distinct reasons — a function whose
captured source is indented (the shape `inspect.getsource` returns for both a
class-body method and a nested function) fails every call with the one
identical parse error (`IndentationError`) raised during extraction, with the
state left untouched (so every retry fails identically); a module-top-level
function's unindented source passes the parse step of extraction. -/
theorem claim_C6 : ∀ (env : DEnv α β) (cfg : DCfg) (st : DState α β) (a : α),
    (st.slot = none →
      (globMatches st.disk (computeKey cfg.compiler_directives cfg.extra_compile_args
        cfg.opt env.intro.funcSource) (platformExt env.isWindows)).isEmpty = true →
      astParseRaises env.intro.funcSource = true →
      wrapper env cfg st a = (.error .indentation, st,
        [.computeHash, .globDisk, .extract])) ∧
    (astParseRaises env.intro.funcSource = false →
      isOkE (generate_cython_source env.intro) = true) := by
  intro env cfg st a
  constructor
  · intro hs hg hind
    rw [wrapper_cold_eq env cfg st a hs, if_pos hg]
    unfold coldMiss
    rw [generate_indentation env.intro hind]
  · intro hind
    simp [generate_cython_source, extract_all_imports, get_called_functions, hind, isOkE]

/-- Introspection data captured for `MyClass.instance_method` of
`error_cases.py`: a decorated function declared in a class body, whose
captured source keeps its file indentation. -/
def introInstanceMethod : Introspection :=
  { funcName := "instance_method"
    funcSource := "    @cycompile()\n    def instance_method(self):\n        print(\"This is an instance method.\")"
    moduleName := "error_cases"
    functionNames := ["simple_function", "object_integration_function", "outer_function"]
    classNames := ["MyClass"]
    fileLines := ["from cythonize_decorator import cycompile"]
    astCalls := ["print"] }

/-- Introspection data for a decorated function declared inside another
function's body: its captured source is likewise indented. -/
def introInnerFunction : Introspection :=
  { funcName := "inner_function"
    funcSource := "    @cycompile()\n    def inner_function():\n        print(\"This is a nested function.\")"
    moduleName := "error_cases"
    functionNames := ["simple_function", "outer_function"]
    classNames := ["MyClass"]
    fileLines := ["from cythonize_decorator import cycompile"]
    astCalls := ["print"] }

/-- The dispatcher environment for the class-body method. -/
def envClassMethod : DEnv Nat Nat := { env0 with intro := introInstanceMethod }

/-- The dispatcher environment for the nested function. -/
def envNested : DEnv Nat Nat := { env0 with intro := introInnerFunction }

set_option maxRecDepth 100000 in
/-- Counterexample for C6 as stated: calling the decorated class-body method
and the decorated nested function both fail — but with the *same* error value
(the `IndentationError` from parsing the indented source), not with a
`ScopeError` carrying two distinguishable reasons; no such reasons exist in
the code. -/
theorem claim_C6_counterexample :
    errOf (wrapper envClassMethod cfg0 stFresh 3).1 = some .indentation ∧
    errOf (wrapper envNested cfg0 stFresh 3).1 = some .indentation ∧
    errOf (wrapper envClassMethod cfg0 stFresh 3).1 =
      errOf (wrapper envNested cfg0 stFresh 3).1 := by
  refine ⟨by decide, by decide, by decide⟩

set_option maxRecDepth 100000 in
/-- Witness for C6 (amended): the class-body method's call fails with the
indentation error and an untouched state, and the module-level function `f`'s
unindented source passes the extraction parse step. -/
theorem claim_C6_witness :
    wrapper envClassMethod cfg0 stFresh 3 = (.error .indentation, stFresh,
      [.computeHash, .globDisk, .extract]) ∧
    isOkE (generate_cython_source env0.intro) = true :=
  ⟨(claim_C6 envClassMethod cfg0 stFresh 3).1 rfl rfl rfl,
   (claim_C6 env0 cfg0 stFresh 3).2 rfl⟩

end Cycompile
